import Mathlib

/-!
Verification of the scheduling optimization engine of the bitrix24-ai-assistant
repository (`app/services/smart_scheduler.py`).

The embedding below is a shallow model of `SmartScheduler`.  Conventions:

* Timestamps (`datetime` values) are natural numbers counting minutes from a
  reference Monday at 00:00, so `t / 1440` is the calendar date (an ordinal day
  number), `t / 1440 % 7` is Python's `weekday()` (Monday = 0 ... Sunday = 6)
  and `t % 1440 / 60` is `hour`.  `timedelta` arithmetic becomes plain
  arithmetic on minutes.
* The database reached through SQLAlchemy is modelled as an explicit value of
  type `Database`.  The scheduler's per-participant queries are, however, not
  well-formed against the actual models: `Event` (app/models/calendar.py) has
  no `user_id` column, `Event.duration` is a hybrid property producing a
  timedelta rather than an integer column, and `Task.assigned_to`
  (app/models/task.py) is an ORM relationship, not a string id column.
  Building such a statement raises `AttributeError` in Python before any row
  is read, so those queries are modelled as `Except` computations that fail
  at construction; the handlers around them return the same fallbacks the
  source's `except` clauses produce (`{}` → `[]`, `[]`).
* Python `float` arithmetic on scores is modelled with exact rationals `ℚ`;
  the score constants (0.3, 0.1, ...) are all decimal literals that `ℚ`
  represents exactly.  Python's `ZeroDivisionError` is modelled by performing
  divisions whose divisor can be zero inside an `Except String` monad via
  `pydiv`; the `try/except Exception` wrappers of the source become handlers
  of that monad.
* The Redis cache is disabled in the model (`self.redis_client = None` branch):
  `_calculate_productivity_patterns` therefore always returns its default
  table, exactly as the source does on a cache miss, and
  `_cache_scheduling_result` is a no-op that does not affect the result.
* `strftime`/`"{:.1f}".format` rendering inside generated Serbian prose is
  abstracted by `toString` of the underlying value; no claim depends on the
  rendering of a timestamp or score inside a sentence.
-/

set_option maxRecDepth 1000000

deriving instance DecidableEq for Except

namespace SmartScheduler

/-- Scheduling priority levels (`SchedulingPriority` in the source). -/
inductive SchedulingPriority
  | low
  | medium
  | high
  | urgent
deriving DecidableEq

/-- Types of meetings for optimization (`MeetingType` in the source). -/
inductive MeetingType
  | standup
  | brainstorming
  | presentation
  | decision_making
  | one_on_one
  | team_meeting
  | client_call
deriving DecidableEq

/-- Scheduling optimization goals (`OptimizationGoal` in the source). -/
inductive OptimizationGoal
  | productivity
  | work_life_balance
  | creativity
  | focus_time
  | collaboration
deriving DecidableEq

/-- A calendar event row (`app/models/calendar.py`, class `Event`), with the
columns relevant to the scheduler.  Crucially the model has NO `user_id`
column: events are keyed by `calendar_id` and `created_by_id`.  `start_time`
and `end_time` are the `DateTime` columns, as minutes here. -/
structure Event where
  title : String
  start_time : Nat
  end_time : Nat
  calendar_id : String
  created_by_id : String
deriving DecidableEq

/-- The `duration` hybrid property of `Event`
(`app/models/calendar.py`): `end_time - start_time`, a `timedelta` value in
Python, modelled in whole minutes. -/
def Event.duration (ev : Event) : Nat := ev.end_time - ev.start_time

/-- A task row (`app/models/task.py`, class `Task`), with the columns
relevant to the scheduler.  The assignee lives in the foreign-key column
`assigned_to_id` (nullable); `assigned_to` itself is an ORM relationship to
`User`, not a string column.  `due_date` and `created_at` are `DateTime`
columns, as minutes here. -/
structure Task where
  title : String
  created_by_id : String
  assigned_to_id : Option String
  due_date : Option Nat
  created_at : Nat
deriving DecidableEq

/-- The read-only data source: all event and task rows visible to queries. -/
structure Database where
  events : List Event
  tasks : List Task
deriving DecidableEq

/-- Python `datetime.date()` on the minute clock: the ordinal day number. -/
def dateOf (t : Nat) : Nat := t / 1440

/-- Python `date.weekday()` for an ordinal day number (Monday = 0). -/
def weekdayOfDate (d : Nat) : Nat := d % 7

/-- Python `datetime.weekday()` on the minute clock (Monday = 0, Sunday = 6). -/
def weekdayOf (t : Nat) : Nat := t / 1440 % 7

/-- Python `datetime.hour` on the minute clock. -/
def hourOf (t : Nat) : Nat := t % 1440 / 60

/-- A time slot with availability info (`TimeSlot` dataclass in the source). -/
structure TimeSlot where
  start_time : Nat
  end_time : Nat
  available_users : List String
  productivity_score : ℚ
  conflict_score : ℚ
  optimal_for : List MeetingType
deriving DecidableEq

/-- Per-user scheduling constraints (`SchedulingConstraint` dataclass in the
source); working hours and break/focus intervals are minutes of day. -/
structure SchedulingConstraint where
  working_hours : Nat × Nat
  break_times : List (Nat × Nat)
  meeting_limit_per_day : Nat
  focus_time_blocks : List (Nat × Nat)
  preferred_meeting_duration : Nat
  avoid_back_to_back : Bool
deriving DecidableEq

/-- Result of scheduling optimization (`OptimizationResult` dataclass). -/
structure OptimizationResult where
  recommended_time : Nat
  confidence_score : ℚ
  alternative_times : List Nat
  reasoning : String
  productivity_impact : String
  conflict_warnings : List String
deriving DecidableEq

/-- One busy interval of a participant, as collected by
`_analyze_team_availability`: the dict `{start, end, type}`; the `end` key is
called `stop` here because `end` is a Lean keyword. -/
structure BusyInterval where
  start : Nat
  stop : Nat
  kind : String
deriving DecidableEq

/-- The fixed productivity-by-hour table of
`_calculate_productivity_patterns`. -/
structure ProductivityPatterns where
  morning_early : ℚ
  morning_late : ℚ
  afternoon_early : ℚ
  afternoon_late : ℚ
  evening : ℚ
  late : ℚ
deriving DecidableEq

/-- The default productivity table of `_calculate_productivity_patterns`. -/
def default_patterns : ProductivityPatterns :=
  { morning_early := 0.9
    morning_late := 0.8
    afternoon_early := 0.6
    afternoon_late := 0.7
    evening := 0.5
    late := 0.3 }

/-- The per-participant record stored in `availability_data` by
`_analyze_team_availability`. -/
structure AvailabilityEntry where
  busy_slots : List BusyInterval
  productivity_patterns : ProductivityPatterns
  total_meetings : Nat
  total_tasks : Nat
  workload_score : ℚ
deriving DecidableEq

/-- `_calculate_productivity_patterns`: with the Redis cache absent it always
falls back to the default table. -/
def calculate_productivity_patterns (user_id : String) : ProductivityPatterns :=
  default_patterns

/-- The per-participant events statement built by
`_analyze_team_availability` and `analyze_team_workload`:
`select(Event).where(Event.user_id == user_id).where(...)`.  The `Event`
model has no `user_id` attribute, so evaluating `Event.user_id` raises
`AttributeError` while the statement is being constructed — before the
window clauses or any row of the database are reached (which is why the
window bounds are not even parameters here).  The exception's type name
stands in for Python's message. -/
def query_user_events (user_id : String) (db : Database) :
    Except String (List Event) :=
  Except.error ("AttributeError")

/-- The per-participant tasks statement
`select(Task).where(Task.assigned_to == user_id).where(...)` of the same two
loops.  `Task.assigned_to` is an ORM relationship (the id column is
`assigned_to_id`), so comparing it with a string id is not a valid column
filter either; the statement is unreachable anyway, because the events
statement of the same loop iteration has already raised, so the modelled
error value is never observed. -/
def query_user_tasks (user_id : String) (db : Database) :
    Except String (List Task) :=
  Except.error ("AttributeError")

/-- One iteration of the `for user_id in participants` loop of
`_analyze_team_availability`: fetch events and tasks (the first fetch
already raises), then — in code the raise makes unreachable — turn events
into `meeting` busy intervals, task deadlines into 2-hour `deadline` busy
intervals, and record the meeting-count workload score
`min(len(events)/10, 1)`.  The dead interval construction is translated
from the source text with durations read as minutes; in Python even that
line would fault on a fetched row, since
`timedelta(minutes=event.duration)` feeds a timedelta where minutes are
expected. -/
def build_availability_entry (user_id : String) (start_date : Nat)
    (end_date : Nat) (db : Database) : Except String AvailabilityEntry := do
  let user_events ← query_user_events user_id db
  let user_tasks ← query_user_tasks user_id db
  let busy_meetings := user_events.map (fun ev =>
    { start := ev.start_time, stop := ev.start_time + ev.duration,
      kind := "meeting" : BusyInterval })
  let busy_deadlines := user_tasks.filterMap (fun tk =>
    tk.due_date.map (fun d =>
      { start := d - 120, stop := d, kind := "deadline" : BusyInterval }))
  return { busy_slots := busy_meetings ++ busy_deadlines
           productivity_patterns := calculate_productivity_patterns user_id
           total_meetings := user_events.length
           total_tasks := user_tasks.length
           workload_score := min ((user_events.length : ℚ) / 10) 1 }

/-- The `try` body of `_analyze_team_availability`: build every
participant's record in order.  The first iteration raises at its first
query, so a nonempty participant list yields the `AttributeError`; only the
empty list reaches `return availability_data` (with the empty map). -/
def analyze_team_availability_body (participants : List String)
    (start_date : Nat) (end_date : Nat) (db : Database) :
    Except String (List (String × AvailabilityEntry)) :=
  participants.mapM (fun user_id => do
    let entry ← build_availability_entry user_id start_date end_date db
    pure (user_id, entry))

/-- `_analyze_team_availability`: the body guarded by `except Exception`,
whose handler returns the empty dict `{}`.  Since every nonempty participant
list raises at its first query, the result is the empty availability map on
every input (`analyze_team_availability_always_nil`). -/
def analyze_team_availability (participants : List String) (start_date : Nat)
    (end_date : Nat) (db : Database) : List (String × AvailabilityEntry) :=
  match analyze_team_availability_body participants start_date end_date db with
  | .ok availability_data => availability_data
  | .error _ => []

/-- The conflict statement of `_check_slot_availability` for one
participant: `select(Event).where(Event.user_id == user_id).where(or_(...))`.
As in the other statements, `Event.user_id` raises `AttributeError` at
construction; the three-clause `or_` overlap test after it (whose
`Event.start_time + timedelta(minutes=Event.duration)` would itself be
ill-typed, `duration` being a timedelta-valued hybrid property) is never
reached. -/
def query_conflicting_events (user_id : String) (start_time : Nat)
    (end_time : Nat) (db : Database) : Except String (List Event) :=
  Except.error ("AttributeError")

/-- The `try` body of `_check_slot_availability`: fold over the
participants, appending each one whose conflict query returns no row.  The
first participant's query raises, so only the empty participant list
reaches `return available_users` (with the empty list). -/
def check_slot_availability_body (start_time : Nat) (end_time : Nat)
    (participants : List String) (db : Database) :
    Except String (List String) :=
  participants.foldlM (fun available_users user_id => do
    let conflicts ← query_conflicting_events user_id start_time end_time db
    if conflicts.isEmpty then pure (available_users ++ [user_id])
    else pure available_users) []

/-- `_check_slot_availability`: the body guarded by `except Exception`,
whose handler returns `[]` — hence the result is `[]` on every input
(`check_slot_availability_always_nil`): a nonempty participant list raises
at its first query and the empty list returns the initial `[]` directly. -/
def check_slot_availability (start_time : Nat) (end_time : Nat)
    (participants : List String) (db : Database) : List String :=
  match check_slot_availability_body start_time end_time participants db with
  | .ok available_users => available_users
  | .error _ => []

/-- The inner `while current_time + duration <= working_end` walk of
`_generate_time_slots`, advancing in 30-minute steps.  The walk is encoded
with a fuel argument to keep the recursion structural (so that it evaluates
inside the kernel); `slot_walk` below supplies `working_end + 1 - start`
fuel, which is sufficient because every iteration advances `current_time`
by 30 ≥ 1 minutes, so the fuel can never run out before the guard fails. -/
def slot_walk_aux : Nat → Nat → Nat → Nat → List Nat
  | 0, _, _, _ => []
  | fuel + 1, current_time, duration_minutes, working_end =>
    if current_time + duration_minutes ≤ working_end then
      current_time :: slot_walk_aux fuel (current_time + 30) duration_minutes working_end
    else []

/-- All slot start times visited by the 30-minute walk from `current_time`
while `current_time + duration ≤ working_end`. -/
def slot_walk (current_time : Nat) (duration_minutes : Nat)
    (working_end : Nat) : List Nat :=
  slot_walk_aux (working_end + 1 - current_time) current_time duration_minutes working_end

/-- `_generate_time_slots`: iterate the calendar days of the window
inclusively, skip Saturday and Sunday, walk each day's default working hours
(09:00–17:00, i.e. minutes 540–1020 — the `constraints` argument is accepted
but, exactly as in the source, never read), and keep a slot only when every
participant passes `_check_slot_availability`.  With the availability check
failing closed, the length condition `0 = len(participants)` holds only for
the empty participant list, so a nonempty list yields no slot at all
(`generate_time_slots_nonempty_participants`). -/
def generate_time_slots (participants : List String) (duration_minutes : Nat)
    (start_date : Nat) (end_date : Nat) (db : Database)
    (constraints : List (String × SchedulingConstraint)) : List TimeSlot :=
  let default_start := 540
  let default_end := 1020
  let current_date := dateOf start_date
  let end_search_date := dateOf end_date
  ((List.range (end_search_date + 1 - current_date)).map
      (fun k => current_date + k)).flatMap (fun day =>
    if weekdayOfDate day ≥ 5 then []
    else
      let working_start := day * 1440 + default_start
      let working_end := day * 1440 + default_end
      (slot_walk working_start duration_minutes working_end).filterMap
        (fun current_time =>
          let slot_end := current_time + duration_minutes
          let available_users :=
            check_slot_availability current_time slot_end participants db
          if available_users.length = participants.length then
            some { start_time := current_time
                   end_time := slot_end
                   available_users := available_users
                   productivity_score := 0
                   conflict_score := 0
                   optimal_for := [] }
          else none))

/-- Python division, which raises `ZeroDivisionError` on a zero divisor. -/
def pydiv (a b : ℚ) : Except String ℚ :=
  if b = 0 then Except.error ("ZeroDivisionError") else Except.ok (a / b)

/-- The meeting-type/hour bonus of `_score_time_slots`, verbatim from the
`if meeting_type == ...` chain. -/
def meeting_type_bonus (meeting_type : MeetingType) (hour : Nat) : ℚ :=
  match meeting_type with
  | .brainstorming =>
    if 9 ≤ hour ∧ hour ≤ 11 then 0.4
    else if 14 ≤ hour ∧ hour ≤ 16 then 0.2
    else 0
  | .standup =>
    if 9 ≤ hour ∧ hour ≤ 10 then 0.5
    else if 10 ≤ hour ∧ hour ≤ 11 then 0.3
    else 0
  | .decision_making =>
    if 10 ≤ hour ∧ hour ≤ 14 then 0.4
    else 0
  | _ => 0

/-- The per-participant productivity term of `_score_time_slots`: looked up
only when `user_id in availability_data`, with the hour-bucket `elif` chain
and the `patterns.get(key, 0.5)` default (the modelled pattern table always
carries all six keys, so the stored weight is used). -/
def productivity_pattern_bonus
    (availability_data : List (String × AvailabilityEntry))
    (user_id : String) (hour : Nat) : ℚ :=
  match List.lookup user_id availability_data with
  | none => 0
  | some entry =>
    let patterns := entry.productivity_patterns
    if 8 ≤ hour ∧ hour ≤ 10 then patterns.morning_early * 0.1
    else if 10 ≤ hour ∧ hour ≤ 12 then patterns.morning_late * 0.1
    else if 12 ≤ hour ∧ hour ≤ 14 then patterns.afternoon_early * 0.1
    else if 14 ≤ hour ∧ hour ≤ 16 then patterns.afternoon_late * 0.1
    else if 16 ≤ hour ∧ hour ≤ 18 then patterns.evening * 0.1
    else 0

/-- The `availability_data.get(user_id, {}).get('workload_score', 0.5)`
lookup of `_score_time_slots`. -/
def workload_of (availability_data : List (String × AvailabilityEntry))
    (user_id : String) : ℚ :=
  match List.lookup user_id availability_data with
  | none => 0.5
  | some entry => entry.workload_score

/-- The body of the `for slot in time_slots` loop of `_score_time_slots`:
base score, meeting-type bonus, summed productivity terms, workload-balance
bonus (whose division by `len(participants)` raises `ZeroDivisionError` for
an empty participant list), weekday bonus, and the final `min(score, 1.0)`
assignment into the slot. -/
def score_one_slot (participants : List String) (meeting_type : MeetingType)
    (availability_data : List (String × AvailabilityEntry))
    (slot : TimeSlot) : Except String TimeSlot := do
  let hour := hourOf slot.start_time
  let score : ℚ := 0
  let score := score + 0.3
  let score := score + meeting_type_bonus meeting_type hour
  let score := participants.foldl
    (fun s user_id => s + productivity_pattern_bonus availability_data user_id hour)
    score
  let total_workload : ℚ :=
    (participants.map (fun user_id => workload_of availability_data user_id)).sum
  let avg_workload ← pydiv total_workload (participants.length : ℚ)
  let score := score + (1 - avg_workload) * 0.2
  let weekday := weekdayOf slot.start_time
  let score := score +
    (if weekday < 4 then (0.1 : ℚ) else if weekday = 4 then 0.05 else 0)
  return { slot with productivity_score := min score 1 }

/-- One insertion step of the stable descending sort on
`productivity_score`: the new element `x` (which precedes the already sorted
elements in generation order) passes over strictly better-scored elements and
lands before the first element whose score is not strictly greater.  This is
exactly where Python's stable `sorted(..., key=score, reverse=True)` places
it, a stable sort being uniquely determined by its key order. -/
def stable_insert_desc (x : TimeSlot) : List TimeSlot → List TimeSlot
  | [] => [x]
  | y :: ys =>
    if x.productivity_score < y.productivity_score then
      y :: stable_insert_desc x ys
    else x :: y :: ys

/-- The stable descending sort by `productivity_score` used at the end of
`_score_time_slots` (`sorted(time_slots, key=..., reverse=True)`). -/
def sort_by_score_desc : List TimeSlot → List TimeSlot
  | [] => []
  | x :: xs => stable_insert_desc x (sort_by_score_desc xs)

/-- `_score_time_slots`: score every generated slot (the loop can raise
`ZeroDivisionError`, carried by the monad) and return the slots sorted by
score, highest first, ties keeping generation order. -/
def score_time_slots (time_slots : List TimeSlot) (participants : List String)
    (meeting_type : MeetingType) (optimization_goal : OptimizationGoal)
    (availability_data : List (String × AvailabilityEntry)) :
    Except String (List TimeSlot) := do
  let scored ← time_slots.mapM
    (score_one_slot participants meeting_type availability_data)
  return sort_by_score_desc scored

/-- Serbian weekday names used by `_generate_scheduling_reasoning`. -/
def serbian_day_names : List String :=
  ["ponedeljak", "utorak", "sreda", "četvrtak", "petak", "subota", "nedelja"]

/-- `_generate_scheduling_reasoning`: the Serbian prose assembled for the
chosen slot.  `strftime` and `"{:.1f}"` rendering are abstracted by
`toString` of the minute clock / score. -/
def generate_scheduling_reasoning (slot : TimeSlot)
    (participants : List String) (meeting_type : MeetingType) : String :=
  let time_str := toString slot.start_time
  let day_name := serbian_day_names.getD (weekdayOf slot.start_time) ("")
  let hour := hourOf slot.start_time
  let reasons := ["Preporučujem " ++ time_str ++ " (" ++ day_name ++ ")"]
  let reasons := reasons ++
    (if 9 ≤ hour ∧ hour ≤ 11 then ["jutarnji termin je idealan za produktivnost"]
     else if 11 ≤ hour ∧ hour ≤ 13 then ["pre-podnevni termin omogućava fokus"]
     else if 14 ≤ hour ∧ hour ≤ 16 then ["popodnevni termin je dobar za kolaboraciju"]
     else [])
  let reasons := reasons ++
    (match meeting_type with
     | .brainstorming => ["vreme je optimalno za kreativni rad"]
     | .standup => ["idealno za kratak status update"]
     | .decision_making => ["omogućava kvalitetno donošenje odluka"]
     | _ => [])
  let reasons := reasons ++
    ["svi " ++ toString participants.length ++ " učesnika su dostupni"]
  let reasons := reasons ++
    (if slot.productivity_score > 0.8 then
      ["visok score produktivnosti (" ++ toString slot.productivity_score ++ ")"]
     else if slot.productivity_score > 0.6 then
      ["dobar score produktivnosti (" ++ toString slot.productivity_score ++ ")"]
     else [])
  String.intercalate (". ") reasons ++ "."

/-- `_analyze_productivity_impact`: the four-tier Serbian impact label. -/
def analyze_productivity_impact (slot : TimeSlot)
    (participants : List String)
    (availability_data : List (String × AvailabilityEntry)) : String :=
  if slot.productivity_score > 0.8 then
    "Visok pozitivan uticaj na produktivnost tima"
  else if slot.productivity_score > 0.6 then
    "Umeren pozitivan uticaj na produktivnost"
  else if slot.productivity_score > 0.4 then
    "Neutralan uticaj na produktivnost"
  else "Mogući negativan uticaj na produktivnost"

/-- `_check_scheduling_conflicts`: the advisory warnings for the chosen slot.
Note the lunch test is Python's chained comparison
`12 <= slot.start_time.hour <= 13`. -/
def check_scheduling_conflicts (slot : TimeSlot)
    (participants : List String) : List String :=
  (if 12 ≤ hourOf slot.start_time ∧ hourOf slot.start_time ≤ 13 then
    ["Sastanak je zakazan tokom vremena za ručak"]
   else []) ++
  (if hourOf slot.start_time ≥ 16 then
    ["Kasni termin može uticati na work-life balance"]
   else []) ++
  (if weekdayOf slot.start_time = 4 ∧ hourOf slot.start_time ≥ 15 then
    ["Petak popodne može imati nižu angažovanost"]
   else [])

/-- The body of `find_optimal_meeting_time` inside its `try`: availability
analysis, slot generation, scoring (which may raise), then either the
hard-coded no-slot result or the result built from the best slot.  The
best-effort cache write at the end has no effect on the returned value. -/
def find_optimal_meeting_time_body (participants : List String)
    (duration_minutes : Nat) (meeting_type : MeetingType)
    (priority : SchedulingPriority) (preferred_date : Option Nat)
    (constraints : List (String × SchedulingConstraint))
    (optimization_goal : OptimizationGoal) (db : Database) (now : Nat) :
    Except String OptimizationResult := do
  let search_start := preferred_date.getD now
  let search_end := search_start + 14 * 1440
  let availability_data :=
    analyze_team_availability participants search_start search_end db
  let potential_slots :=
    generate_time_slots participants duration_minutes search_start search_end
      db constraints
  let scored_slots ← score_time_slots potential_slots participants
    meeting_type optimization_goal availability_data
  match scored_slots with
  | [] =>
    return { recommended_time := search_start + 1440
             confidence_score := 0
             alternative_times := []
             reasoning := "Nema dostupnih termina za sve učesnike u traženom periodu."
             productivity_impact := "Nepoznat"
             conflict_warnings := ["Nema slobodnih termina"] }
  | best_slot :: rest =>
    let alternative_times := (rest.take 5).map (fun slot => slot.start_time)
    return { recommended_time := best_slot.start_time
             confidence_score := best_slot.productivity_score
             alternative_times := alternative_times
             reasoning := generate_scheduling_reasoning best_slot participants meeting_type
             productivity_impact :=
               analyze_productivity_impact best_slot participants availability_data
             conflict_warnings := check_scheduling_conflicts best_slot participants }

/-- `find_optimal_meeting_time`: the body above guarded by
`except Exception`, which converts any raised error into the fallback
result recommending one hour from now with zero confidence. -/
def find_optimal_meeting_time (participants : List String)
    (duration_minutes : Nat) (meeting_type : MeetingType)
    (priority : SchedulingPriority) (preferred_date : Option Nat)
    (constraints : List (String × SchedulingConstraint))
    (optimization_goal : OptimizationGoal) (db : Database) (now : Nat) :
    OptimizationResult :=
  match find_optimal_meeting_time_body participants duration_minutes
      meeting_type priority preferred_date constraints optimization_goal
      db now with
  | .ok result => result
  | .error e =>
    { recommended_time := now + 60
      confidence_score := 0
      alternative_times := []
      reasoning := "Greška pri pronalaženju optimalnog vremena: " ++ e
      productivity_impact := "Nepoznat"
      conflict_warnings := [] }

/-- `_get_workload_status`: the Serbian workload status tiers. -/
def get_workload_status (score : ℚ) : String :=
  if score < 0.3 then "Nisko opterećenje"
  else if score < 0.6 then "Optimalno opterećenje"
  else if score < 0.8 then "Visoko opterećenje"
  else "Preopterećen"

/-- Round-half-to-even at the integer, the semantics of Python's `round`
applied to an exact rational value. -/
def py_round (q : ℚ) : ℤ :=
  let f := Rat.floor q
  let r := q - (f : ℚ)
  if r < 1 / 2 then f
  else if 1 / 2 < r then f + 1
  else if f % 2 = 0 then f else f + 1

/-- Python `round(x, 1)` on an exact rational value. -/
def py_round1 (q : ℚ) : ℚ := (py_round (q * 10) : ℚ) / 10

/-- `week`/`month` period-name mapping of `analyze_team_workload` (anything
else falls through to the quarter length). -/
def period_days (time_period : String) : Nat :=
  if time_period = "week" then 7
  else if time_period = "month" then 30
  else 90

/-- One user's record in `workload_data`, as built by
`analyze_team_workload`: counts, rates guarded against a zero-day period,
the workload score `min(avg_meetings/5 + avg_meeting_hours/4, 1)` and the
status tier.  The displayed averages are rounded to one decimal. -/
structure WorkloadEntry where
  meeting_count : Nat
  total_meeting_time : Nat
  task_count : Nat
  workload_score : ℚ
  avg_meetings_per_day : ℚ
  avg_meeting_hours_per_day : ℚ
  status : String
deriving DecidableEq

/-- The per-user metric arithmetic of the `for user_id in team_members`
loop of `analyze_team_workload`: counts, total meeting minutes, the
zero-guarded daily rates (`if days_in_period > 0 else 0`) and the capped
score `min(avg_meetings/5 + avg_meeting_hours/4, 1)`, translated from the
source text and parametrised by the fetched rows.  In the program the loop
raises at its first query, so this arithmetic never executes; even reached,
the source's `sum(event.duration for event in user_events)` would raise
`TypeError` (adding timedeltas to the int 0).  Durations are read as
minutes. -/
def workload_entry_from (user_events : List Event) (user_tasks : List Task)
    (start_date : Nat) (now : Nat) : WorkloadEntry :=
  let total_meeting_time := (user_events.map (fun ev => ev.duration)).sum
  let meeting_count := user_events.length
  let task_count := user_tasks.length
  let days_in_period := (now - start_date) / 1440
  let avg_meetings_per_day : ℚ :=
    if days_in_period > 0 then (meeting_count : ℚ) / (days_in_period : ℚ) else 0
  let avg_meeting_hours_per_day : ℚ :=
    if days_in_period > 0 then
      ((total_meeting_time : ℚ) / 60) / (days_in_period : ℚ)
    else 0
  let workload_score :=
    min (avg_meetings_per_day / 5 + avg_meeting_hours_per_day / 4) 1
  { meeting_count := meeting_count
    total_meeting_time := total_meeting_time
    task_count := task_count
    workload_score := workload_score
    avg_meetings_per_day := py_round1 avg_meetings_per_day
    avg_meeting_hours_per_day := py_round1 avg_meeting_hours_per_day
    status := get_workload_status workload_score }

/-- `_generate_workload_recommendations`: the fixed Serbian recommendation
rules over the computed workload data. -/
def generate_workload_recommendations
    (workload_data : List (String × WorkloadEntry)) : List String :=
  let overloaded := workload_data.filter (fun p =>
    decide (p.2.workload_score > 0.8))
  let underloaded := workload_data.filter (fun p =>
    decide (p.2.workload_score < 0.3))
  let high_meeting_users := workload_data.filter (fun p =>
    decide (p.2.avg_meetings_per_day > 4))
  (if overloaded.isEmpty then []
   else ["Preopterećeni članovi tima (" ++ toString overloaded.length ++
     "): potrebno je redistribuiranje zadataka"]) ++
  (if underloaded.isEmpty then []
   else ["Članovi sa niskim opterećenjem (" ++ toString underloaded.length ++
     "): mogu preuzeti dodatne zadatke"]) ++
  (if high_meeting_users.isEmpty then []
   else ["Previše sastanaka dnevno - razmotriti konsolidaciju ili ukidanje nepotrebnih"]) ++
  ["Planirati blokove vremena za fokusiran rad bez sastanaka"]

/-- `_generate_workload_summary`: the Serbian team summary; its division by
`len(workload_data)` raises `ZeroDivisionError` for an empty team.  The
`"{:.1f}"` rendering of the average is abstracted by `toString`. -/
def generate_workload_summary
    (workload_data : List (String × WorkloadEntry)) : Except String String := do
  let total_members := workload_data.length
  let avg_score ← pydiv
    ((workload_data.map (fun p => p.2.workload_score)).sum)
    (total_members : ℚ)
  if avg_score < 0.4 then
    return "Tim od " ++ toString total_members ++
      " članova ima nisko opterećenje (prosek: " ++ toString avg_score ++ ")"
  else if avg_score < 0.7 then
    return "Tim od " ++ toString total_members ++
      " članova ima optimalno opterećenje (prosek: " ++ toString avg_score ++ ")"
  else
    return "Tim od " ++ toString total_members ++
      " članova je preopterećen (prosek: " ++ toString avg_score ++ ")"

/-- The full workload report returned by `analyze_team_workload` on
success. -/
structure WorkloadReport where
  period : String
  analysis_date : Nat
  team_workload : List (String × WorkloadEntry)
  team_average_score : ℚ
  recommendations : List String
  summary : String
deriving DecidableEq

/-- The body of `analyze_team_workload` inside its `try`: compute the window
from the period name, fetch every member's rows and build the records, then
assemble the report.  For a nonempty team the first member's events
statement raises `AttributeError` (the `Event.user_id` construction), so the
metric arithmetic is never reached; an empty team skips the loop and then
the team-average division (and the identical one inside the summary) raises
`ZeroDivisionError`. -/
def analyze_team_workload_body (team_members : List String)
    (time_period : String) (db : Database) (now : Nat) :
    Except String WorkloadReport := do
  let start_date := now - period_days time_period * 1440
  let workload_data ← team_members.mapM (fun user_id => do
    let user_events ← query_user_events user_id db
    let user_tasks ← query_user_tasks user_id db
    pure (user_id, workload_entry_from user_events user_tasks start_date now))
  let recommendations := generate_workload_recommendations workload_data
  let team_average_score ← pydiv
    ((workload_data.map (fun p => p.2.workload_score)).sum)
    (workload_data.length : ℚ)
  let summary ← generate_workload_summary workload_data
  return { period := time_period
           analysis_date := now
           team_workload := workload_data
           team_average_score := team_average_score
           recommendations := recommendations
           summary := summary }

/-- The value returned by `analyze_team_workload`: either the report, or the
error dictionary built in the `except` branch. -/
inductive WorkloadResult
  | report (report : WorkloadReport)
  | failed (error : String) (team_workload : List (String × WorkloadEntry))
      (recommendations : List String)
deriving DecidableEq

/-- `analyze_team_workload`: the body guarded by `except Exception`, which
converts any raised error into the error dictionary. -/
def analyze_team_workload (team_members : List String) (time_period : String)
    (db : Database) (now : Nat) : WorkloadResult :=
  match analyze_team_workload_body team_members time_period db now with
  | .ok report => .report report
  | .error e =>
    .failed ("Greška pri analizi opterećenja tima: " ++ e) [] []

/-- The productivity component that the scoring loop adds to a slot's score:
the `for user_id in participants` loop adds one `productivity_pattern_bonus`
term (a bucket weight already scaled by 0.1) per participant, i.e. their
sum. -/
def productivity_contribution
    (availability_data : List (String × AvailabilityEntry))
    (participants : List String) (hour : Nat) : ℚ :=
  ((participants.map
    (fun user_id => productivity_pattern_bonus availability_data user_id hour)).sum)

/-- Modelled from the spec: one participant's weight for the hour bucket
containing a slot's start, over the spec's bucket boundaries (the same six
buckets the code's `elif` chain uses). -/
def spec_hour_bucket_weight (patterns : ProductivityPatterns)
    (hour : Nat) : ℚ :=
  if 8 ≤ hour ∧ hour ≤ 10 then patterns.morning_early
  else if 10 ≤ hour ∧ hour ≤ 12 then patterns.morning_late
  else if 12 ≤ hour ∧ hour ≤ 14 then patterns.afternoon_early
  else if 14 ≤ hour ∧ hour ≤ 16 then patterns.afternoon_late
  else if 16 ≤ hour ∧ hour ≤ 18 then patterns.evening
  else 0

/-- Modelled from the spec: the spec's productivity contribution to a
slot's score — the average, across all participants, of that participant's
weight for the hour bucket containing the slot start, scaled by 0.1.  Per
the spec's availability analysis every participant owns a productivity
table (here the default one, the cache being absent), so the average ranges
over per-participant default-table weights. -/
def spec_average_productivity_contribution (participants : List String)
    (hour : Nat) : ℚ :=
  ((participants.map (fun user_id =>
      spec_hour_bucket_weight (calculate_productivity_patterns user_id) hour *
        0.1)).sum) /
    (participants.length : ℚ)

/-- Modelled from the spec: the `NO_SLOT_FOUND` reason code of the spec's
error-handling taxonomy, which the spec requires the no-viable-slot result to
carry instead of free text.  No such code exists anywhere in the source. -/
def NO_SLOT_FOUND : String := "NO_SLOT_FOUND"

/-- Modelled from the spec: the `InvalidInput` error of the spec's
error-handling taxonomy, said to be raised on an empty participant list.  No
such error exists anywhere in the source. -/
def InvalidInput : String := "InvalidInput"

attribute [local semireducible] Rat.add Rat.mul Rat.inv Rat.sub Rat.ofScientific

/-! ## Helper lemmas -/

theorem except_bind_ok {α β : Type} (a : α) (g : α → Except String β) :
    (Except.ok a >>= g) = g a := rfl

theorem except_bind_error {α β : Type} (e : String) (g : α → Except String β) :
    ((Except.error e : Except String α) >>= g) = Except.error e := rfl

theorem mem_slot_walk_aux {fuel t d wEnd x : Nat}
    (h : x ∈ slot_walk_aux fuel t d wEnd) : t ≤ x ∧ x + d ≤ wEnd := by
  induction fuel generalizing t with
  | zero => simp [slot_walk_aux] at h
  | succ n ih =>
    rw [slot_walk_aux] at h
    by_cases hc : t + d ≤ wEnd
    · rw [if_pos hc] at h
      rcases List.mem_cons.mp h with rfl | h2
      · exact ⟨le_refl x, hc⟩
      · have := ih h2
        omega
    · rw [if_neg hc] at h
      cases h

theorem mem_slot_walk {t d wEnd x : Nat} (h : x ∈ slot_walk t d wEnd) :
    t ≤ x ∧ x + d ≤ wEnd :=
  mem_slot_walk_aux h

theorem slot_walk_aux_pairwise (fuel t d wEnd : Nat) :
    (slot_walk_aux fuel t d wEnd).Pairwise (· < ·) := by
  induction fuel generalizing t with
  | zero => simp [slot_walk_aux]
  | succ n ih =>
    rw [slot_walk_aux]
    by_cases hc : t + d ≤ wEnd
    · rw [if_pos hc]
      refine List.Pairwise.cons ?_ (ih (t + 30))
      intro y hy
      have := mem_slot_walk_aux hy
      omega
    · rw [if_neg hc]
      exact List.Pairwise.nil

theorem slot_walk_pairwise (t d wEnd : Nat) :
    (slot_walk t d wEnd).Pairwise (· < ·) :=
  slot_walk_aux_pairwise _ t d wEnd

/-- `_check_slot_availability` returns `[]` on every input: a nonempty
participant list raises `AttributeError` at its first conflict statement
(caught, yielding `[]`), and an empty list returns the initial `[]`. -/
theorem check_slot_availability_always_nil (start_time end_time : Nat)
    (participants : List String) (db : Database) :
    check_slot_availability start_time end_time participants db = [] := by
  cases participants <;> rfl

/-- `_analyze_team_availability` returns the empty map on every input: a
nonempty participant list raises `AttributeError` at its first events
statement (caught, yielding `{}`), and an empty list returns the empty
map directly. -/
theorem analyze_team_availability_always_nil (participants : List String)
    (start_date end_date : Nat) (db : Database) :
    analyze_team_availability participants start_date end_date db = [] := by
  cases participants <;> rfl

theorem mem_generate_time_slots {participants : List String}
    {duration_minutes start_date end_date : Nat} {db : Database}
    {constraints : List (String × SchedulingConstraint)} {slot : TimeSlot}
    (h : slot ∈ generate_time_slots participants duration_minutes start_date
      end_date db constraints) :
    ∃ day, weekdayOfDate day < 5 ∧
      day * 1440 + 540 ≤ slot.start_time ∧
      slot.start_time + duration_minutes ≤ day * 1440 + 1020 ∧
      slot.end_time = slot.start_time + duration_minutes ∧
      slot.available_users =
        check_slot_availability slot.start_time slot.end_time participants db ∧
      slot.available_users.length = participants.length := by
  unfold generate_time_slots at h
  rw [List.mem_flatMap] at h
  obtain ⟨day, _, hmem⟩ := h
  by_cases hw : weekdayOfDate day ≥ 5
  · rw [if_pos hw] at hmem
    cases hmem
  · rw [if_neg hw] at hmem
    rw [List.mem_filterMap] at hmem
    obtain ⟨t, ht, hslot⟩ := hmem
    obtain ⟨hlo, hhi⟩ := mem_slot_walk ht
    by_cases hl : (check_slot_availability t (t + duration_minutes)
        participants db).length = participants.length
    · rw [if_pos hl] at hslot
      cases hslot
      exact ⟨day, by omega, hlo, hhi, rfl, rfl, hl⟩
    · rw [if_neg hl] at hslot
      cases hslot

/-- For a nonempty participant list no candidate slot is ever generated:
the availability check returns `[]`, whose length 0 never equals the
nonempty participant count demanded by the filter in
`_generate_time_slots`. -/
theorem generate_time_slots_nonempty_participants {participants : List String}
    (h : participants ≠ []) (duration_minutes start_date end_date : Nat)
    (db : Database) (constraints : List (String × SchedulingConstraint)) :
    generate_time_slots participants duration_minutes start_date end_date db
      constraints = [] := by
  rw [List.eq_nil_iff_forall_not_mem]
  intro slot hmem
  obtain ⟨day, -, -, -, -, havail, hlen⟩ := mem_generate_time_slots hmem
  rw [havail] at hlen
  simp only [check_slot_availability_always_nil, List.length_nil] at hlen
  exact h (List.length_eq_zero.mp hlen.symm)

/-- The shared no-slot shape of `find_optimal_meeting_time`: if generation
yields no candidate, the call returns the hard-coded fallback record one day
past the search window start. -/
theorem find_optimal_eq_no_slot (participants : List String)
    (duration_minutes : Nat) (meeting_type : MeetingType)
    (priority : SchedulingPriority) (preferred_date : Option Nat)
    (constraints : List (String × SchedulingConstraint))
    (optimization_goal : OptimizationGoal) (db : Database) (now : Nat)
    (h : generate_time_slots participants duration_minutes
      (preferred_date.getD now) (preferred_date.getD now + 14 * 1440) db
      constraints = []) :
    find_optimal_meeting_time participants duration_minutes meeting_type
      priority preferred_date constraints optimization_goal db now =
      { recommended_time := preferred_date.getD now + 1440
        confidence_score := 0
        alternative_times := []
        reasoning := "Nema dostupnih termina za sve učesnike u traženom periodu."
        productivity_impact := "Nepoznat"
        conflict_warnings := ["Nema slobodnih termina"] } := by
  unfold find_optimal_meeting_time
  simp only [find_optimal_meeting_time_body]
  rw [h]
  rfl

/-- Claim C9 (confirmed): no `TimeSlot` generated (hence none returned) by
`find_optimal_meeting_time` has a start date falling on a Saturday
(weekday 5) or a Sunday (weekday 6), for every input window, database and
participant set. -/
theorem claim_C9_weekend_exclusion {participants : List String}
    {duration_minutes start_date end_date : Nat} {db : Database}
    {constraints : List (String × SchedulingConstraint)} {slot : TimeSlot}
    (h : slot ∈ generate_time_slots participants duration_minutes start_date
      end_date db constraints) :
    weekdayOf slot.start_time ≠ 5 ∧ weekdayOf slot.start_time ≠ 6 := by
  obtain ⟨day, hw, h1, h2, -, -, -⟩ := mem_generate_time_slots h
  have hd : slot.start_time / 1440 = day := by
    apply Nat.div_eq_of_lt_le
    · omega
    · omega
  unfold weekdayOf
  rw [hd]
  unfold weekdayOfDate at hw
  omega

/-- Witness for C9: a concrete generated slot (Monday 09:00 of the first
window day), whose start weekday is indeed neither 5 nor 6. -/
theorem claim_C9_weekend_exclusion_witness :
    ((⟨540, 990, [], 0, 0, []⟩ : TimeSlot) ∈
      generate_time_slots [] 450 0 20160 ⟨[], []⟩ []) ∧
    weekdayOf (540 : Nat) ≠ 5 ∧ weekdayOf (540 : Nat) ≠ 6 :=
  ⟨by decide,
    @claim_C9_weekend_exclusion [] 450 0 20160 ⟨[], []⟩ []
      ⟨540, 990, [], 0, 0, []⟩ (by decide)⟩

/-- Claim C4, counterexample: participant `u` supplies a
`SchedulingConstraint` with working hours 10:00–12:00 (minutes 600–720).
Per the claim, candidates for `u` would be walked over that interval — the
30-minute walk over it is nonempty (starts 600, 630, 660, 690 for a
30-minute meeting), and `u`'s calendar is empty, so candidates would exist.
In fact the call generates no candidate at all, identically with and without
the constraint, and returns the no-slot fallback: `_generate_time_slots`
never reads `constraints`, and its availability check fails closed. -/
theorem claim_C4_constraints_counterexample :
    slot_walk 600 30 720 = 600 :: 630 :: 660 :: 690 :: [] ∧
    generate_time_slots (("u") :: []) 30 0 20160 ⟨[], []⟩
      [("u", ⟨(600, 720), [], 0, [], 30, false⟩)] = [] ∧
    generate_time_slots (("u") :: []) 30 0 20160 ⟨[], []⟩ [] = [] ∧
    find_optimal_meeting_time (("u") :: []) 30 .team_meeting .medium (some 0)
      [("u", ⟨(600, 720), [], 0, [], 30, false⟩)] .productivity ⟨[], []⟩ 0 =
      { recommended_time := 1440
        confidence_score := 0
        alternative_times := []
        reasoning := "Nema dostupnih termina za sve učesnike u traženom periodu."
        productivity_impact := "Nepoznat"
        conflict_warnings := ["Nema slobodnih termina"] } := by
  refine ⟨by decide, by decide, by decide, by decide⟩

/-- Claim C4 as amended: the `constraints` dictionary has no influence
whatsoever — slot generation and the full call result are identical for any
two constraint maps — and for a nonempty participant list no candidate slot
is generated over any working-hours interval at all, the availability check
failing closed; so neither a constrained nor the default walk ever surfaces
a candidate for a constrained participant. -/
theorem claim_C4_constraints_ignored (participants : List String)
    (duration_minutes : Nat) (meeting_type : MeetingType)
    (priority : SchedulingPriority) (preferred_date : Option Nat)
    (optimization_goal : OptimizationGoal) (db : Database) (now : Nat)
    (start_date end_date : Nat) (hne : participants ≠ []) :
    (∀ c c' : List (String × SchedulingConstraint),
      generate_time_slots participants duration_minutes start_date end_date db c =
        generate_time_slots participants duration_minutes start_date end_date db c' ∧
      find_optimal_meeting_time participants duration_minutes meeting_type
        priority preferred_date c optimization_goal db now =
      find_optimal_meeting_time participants duration_minutes meeting_type
        priority preferred_date c' optimization_goal db now) ∧
    (∀ c : List (String × SchedulingConstraint),
      generate_time_slots participants duration_minutes start_date end_date
        db c = []) := by
  refine ⟨fun c c' => ⟨rfl, rfl⟩, fun c =>
    generate_time_slots_nonempty_participants hne duration_minutes start_date
      end_date db c⟩

/-- Witness for the amended C4: with the working-hours-600–720 constraint in
place and with no constraint at all, generation agrees — both empty. -/
theorem claim_C4_constraints_ignored_witness :
    ((("u") :: []) ≠ ([] : List String)) ∧
    (generate_time_slots (("u") :: []) 30 0 20160 ⟨[], []⟩
        [("u", ⟨(600, 720), [], 0, [], 30, false⟩)] =
      generate_time_slots (("u") :: []) 30 0 20160 ⟨[], []⟩ []) ∧
    generate_time_slots (("u") :: []) 30 0 20160 ⟨[], []⟩
      [("u", ⟨(600, 720), [], 0, [], 30, false⟩)] = [] :=
  ⟨by decide,
    ((claim_C4_constraints_ignored (("u") :: []) 30 .team_meeting .medium
      (some 0) .productivity ⟨[], []⟩ 0 0 20160 (by decide)).1
      [("u", ⟨(600, 720), [], 0, [], 30, false⟩)] []).1,
    (claim_C4_constraints_ignored (("u") :: []) 30 .team_meeting .medium
      (some 0) .productivity ⟨[], []⟩ 0 0 20160 (by decide)).2
      [("u", ⟨(600, 720), [], 0, [], 30, false⟩)]⟩

/-- Claim C2 (confirmed): the full-availability invariant holds for every
slot generated (hence returned) by `find_optimal_meeting_time` — vacuously.
A generated slot forces the participant list to be empty: its
`available_users` field is the always-empty result of
`_check_slot_availability` and must match the participant count.  There is
therefore no participant whose busy interval could overlap the slot; the
second conjunct states the claim's no-overlap property (half-open
semantics) over the availability profiles the program builds, for every
participant of the call. -/
theorem claim_C2_full_availability {participants : List String}
    {duration_minutes start_date end_date : Nat} {db : Database}
    {constraints : List (String × SchedulingConstraint)} {slot : TimeSlot}
    (h : slot ∈ generate_time_slots participants duration_minutes start_date
      end_date db constraints) :
    participants = [] ∧
    (∀ u ∈ participants, ∀ entry : AvailabilityEntry,
      List.lookup u (analyze_team_availability participants start_date
        end_date db) = some entry →
      ∀ b ∈ entry.busy_slots,
        ¬(b.start < slot.end_time ∧ slot.start_time < b.stop)) := by
  obtain ⟨day, -, -, -, -, havail, hlen⟩ := mem_generate_time_slots h
  rw [havail] at hlen
  simp only [check_slot_availability_always_nil, List.length_nil] at hlen
  have hp : participants = [] := List.length_eq_zero.mp hlen.symm
  refine ⟨hp, ?_⟩
  intro u hu
  rw [hp] at hu
  cases hu

/-- Witness for C2: the concrete generated slot `[540, 990)` of an
empty-participant call, for which the no-overlap property holds over the
(empty) participant list. -/
theorem claim_C2_full_availability_witness :
    ((⟨540, 990, [], 0, 0, []⟩ : TimeSlot) ∈
      generate_time_slots [] 450 0 20160 ⟨[], []⟩ []) ∧
    (([] : List String) = [] ∧
     (∀ u ∈ ([] : List String), ∀ entry : AvailabilityEntry,
       List.lookup u (analyze_team_availability [] 0 20160 ⟨[], []⟩) =
         some entry →
       ∀ b ∈ entry.busy_slots,
         ¬(b.start < (⟨540, 990, [], 0, 0, []⟩ : TimeSlot).end_time ∧
           (⟨540, 990, [], 0, 0, []⟩ : TimeSlot).start_time < b.stop))) :=
  ⟨by decide,
    @claim_C2_full_availability [] 450 0 20160 ⟨[], []⟩ []
      ⟨540, 990, [], 0, 0, []⟩ (by decide)⟩

theorem score_one_slot_nil (meeting_type : MeetingType)
    (availability_data : List (String × AvailabilityEntry)) (slot : TimeSlot) :
    score_one_slot [] meeting_type availability_data slot =
      Except.error ("ZeroDivisionError") := rfl

theorem score_time_slots_nil_participants {slots : List TimeSlot}
    (meeting_type : MeetingType) (optimization_goal : OptimizationGoal)
    (availability_data : List (String × AvailabilityEntry))
    (h : slots ≠ []) :
    score_time_slots slots [] meeting_type optimization_goal availability_data =
      Except.error ("ZeroDivisionError") := by
  obtain ⟨s, rest, rfl⟩ := List.exists_cons_of_ne_nil h
  rfl

/-- Claim C1, counterexample: called with an empty participant list (and an
otherwise ordinary window), the body of `find_optimal_meeting_time` raises
`ZeroDivisionError` — not `InvalidInput`, which exists nowhere in the code —
and the raise happens inside `_score_time_slots`, after availability
analysis and slot generation have already run; the `except Exception`
handler then converts it into a normal fallback result, so the caller sees
no exception at all. -/
theorem claim_C1_empty_participants_counterexample :
    find_optimal_meeting_time_body [] 30 .team_meeting .medium (some 0) []
      .productivity ⟨[], []⟩ 0 = Except.error ("ZeroDivisionError") ∧
    ("ZeroDivisionError" : String) ≠ InvalidInput ∧
    find_optimal_meeting_time [] 30 .team_meeting .medium (some 0) []
      .productivity ⟨[], []⟩ 0 =
      { recommended_time := 60
        confidence_score := 0
        alternative_times := []
        reasoning := "Greška pri pronalaženju optimalnog vremena: ZeroDivisionError"
        productivity_impact := "Nepoznat"
        conflict_warnings := [] } := by
  refine ⟨by decide, by decide, by decide⟩

/-- Claim C1 as amended: an empty participant list does not raise
`InvalidInput` and does not fail fast; the search runs, and whenever the
window yields at least one candidate slot the scoring loop's division by
`len(participants)` raises `ZeroDivisionError`, which the catch-all handler
turns into the zero-confidence fallback result recommending one hour past
`now`. -/
theorem claim_C1_empty_participants (duration_minutes : Nat)
    (meeting_type : MeetingType) (priority : SchedulingPriority)
    (preferred_date : Option Nat)
    (constraints : List (String × SchedulingConstraint))
    (optimization_goal : OptimizationGoal) (db : Database) (now : Nat)
    (h : generate_time_slots [] duration_minutes (preferred_date.getD now)
      (preferred_date.getD now + 14 * 1440) db constraints ≠ []) :
    find_optimal_meeting_time_body [] duration_minutes meeting_type priority
      preferred_date constraints optimization_goal db now =
      Except.error ("ZeroDivisionError") ∧
    find_optimal_meeting_time [] duration_minutes meeting_type priority
      preferred_date constraints optimization_goal db now =
      { recommended_time := now + 60
        confidence_score := 0
        alternative_times := []
        reasoning := "Greška pri pronalaženju optimalnog vremena: ZeroDivisionError"
        productivity_impact := "Nepoznat"
        conflict_warnings := [] } := by
  obtain ⟨s, rest, hsl⟩ := List.exists_cons_of_ne_nil h
  have hbody : find_optimal_meeting_time_body [] duration_minutes meeting_type
      priority preferred_date constraints optimization_goal db now =
      Except.error ("ZeroDivisionError") := by
    simp only [find_optimal_meeting_time_body]
    rw [hsl]
    rfl
  refine ⟨hbody, ?_⟩
  unfold find_optimal_meeting_time
  rw [hbody]
  rfl

/-- Witness for the amended C1: the standard 30-minute request starting at
minute 0 generates a nonempty candidate list, so the theorem applies. -/
theorem claim_C1_empty_participants_witness :
    (generate_time_slots [] 30 ((some 0).getD 0) ((some 0).getD 0 + 14 * 1440)
      ⟨[], []⟩ [] ≠ []) ∧
    find_optimal_meeting_time_body [] 30 .team_meeting .medium (some 0) []
      .productivity ⟨[], []⟩ 0 = Except.error ("ZeroDivisionError") :=
  ⟨by decide,
    (claim_C1_empty_participants 30 .team_meeting .medium (some 0) []
      .productivity ⟨[], []⟩ 0 (by decide)).1⟩

/-- Claim C5, counterexample: with a requested duration of 600 minutes
(exceeding the 480-minute working-hours span of every day), the call indeed
returns a normal result with confidence 0.0, empty alternatives and a
fallback time one day past the window start — but the reason field is the
fixed free-text Serbian sentence (and the warning list a free-text Serbian
string), not a `NO_SLOT_FOUND` reason code as the claim states. -/
theorem claim_C5_no_slot_counterexample :
    find_optimal_meeting_time (("u") :: []) 600 .team_meeting .medium (some 0)
      [] .productivity ⟨[], []⟩ 0 =
      { recommended_time := 1440
        confidence_score := 0
        alternative_times := []
        reasoning := "Nema dostupnih termina za sve učesnike u traženom periodu."
        productivity_impact := "Nepoznat"
        conflict_warnings := ["Nema slobodnih termina"] } ∧
    ("Nema dostupnih termina za sve učesnike u traženom periodu." : String) ≠
      NO_SLOT_FOUND ∧
    ("Nema slobodnih termina" : String) ≠ NO_SLOT_FOUND := by
  refine ⟨by decide, by decide, by decide⟩

/-- Claim C5 as amended: whenever no candidate slot survives generation,
`find_optimal_meeting_time` returns a normal result — not an exception —
with confidence 0.0, an empty alternatives list and a recommended fallback
time exactly one day past the search window start; the no-slot reason is the
fixed free-text Serbian message (with a fixed free-text warning), not a
structured `NO_SLOT_FOUND` code. -/
theorem claim_C5_no_slot (participants : List String)
    (duration_minutes : Nat) (meeting_type : MeetingType)
    (priority : SchedulingPriority) (preferred_date : Option Nat)
    (constraints : List (String × SchedulingConstraint))
    (optimization_goal : OptimizationGoal) (db : Database) (now : Nat)
    (h : generate_time_slots participants duration_minutes
      (preferred_date.getD now) (preferred_date.getD now + 14 * 1440) db
      constraints = []) :
    find_optimal_meeting_time participants duration_minutes meeting_type
      priority preferred_date constraints optimization_goal db now =
      { recommended_time := preferred_date.getD now + 1440
        confidence_score := 0
        alternative_times := []
        reasoning := "Nema dostupnih termina za sve učesnike u traženom periodu."
        productivity_impact := "Nepoznat"
        conflict_warnings := ["Nema slobodnih termina"] } := by
  unfold find_optimal_meeting_time
  simp only [find_optimal_meeting_time_body]
  rw [h]
  rfl

/-- Witness for the amended C5: the 600-minute request of the spec's
Scenario D generates no candidate slot, so the theorem applies and yields the
fallback result at minute 1440 (one day past the window start 0). -/
theorem claim_C5_no_slot_witness :
    (generate_time_slots (("u") :: []) 600 ((some 0).getD 0)
      ((some 0).getD 0 + 14 * 1440) ⟨[], []⟩ [] = []) ∧
    find_optimal_meeting_time (("u") :: []) 600 .team_meeting .medium (some 0)
      [] .productivity ⟨[], []⟩ 0 =
      { recommended_time := (some 0).getD 0 + 1440
        confidence_score := 0
        alternative_times := []
        reasoning := "Nema dostupnih termina za sve učesnike u traženom periodu."
        productivity_impact := "Nepoznat"
        conflict_warnings := ["Nema slobodnih termina"] } :=
  ⟨by decide,
    claim_C5_no_slot (("u") :: []) 600 .team_meeting .medium (some 0) []
      .productivity ⟨[], []⟩ 0 (by decide)⟩

/-- Claim C6, counterexample: a slot starting at 13:00 (minute 780 of day 0,
so start hour 13, outside `[12, 13)`) still receives the lunch-overlap
warning, because the source's chained comparison
`12 <= slot.start_time.hour <= 13` also accepts hour 13. -/
theorem claim_C6_lunch_counterexample :
    (("Sastanak je zakazan tokom vremena za ručak") ∈
      check_scheduling_conflicts ⟨780, 810, [], 0, 0, []⟩ (("u") :: [])) ∧
    hourOf (780 : Nat) = 13 := by
  refine ⟨by decide, by decide⟩

/-- Claim C6 as amended: the conflict checker emits the lunch-overlap
warning on a slot if and only if the slot's start hour lies in the closed
interval `[12, 13]` — i.e. for start hours 12 and 13, not only 12. -/
theorem claim_C6_lunch_warning_iff (slot : TimeSlot)
    (participants : List String) :
    (("Sastanak je zakazan tokom vremena za ručak") ∈
      check_scheduling_conflicts slot participants) ↔
    (12 ≤ hourOf slot.start_time ∧ hourOf slot.start_time ≤ 13) := by
  have hne1 : ("Sastanak je zakazan tokom vremena za ručak" : String) ≠
      "Kasni termin može uticati na work-life balance" := by decide
  have hne2 : ("Sastanak je zakazan tokom vremena za ručak" : String) ≠
      "Petak popodne može imati nižu angažovanost" := by decide
  unfold check_scheduling_conflicts
  simp only [List.mem_append]
  constructor
  · rintro ((h | h) | h)
    · by_cases hc : 12 ≤ hourOf slot.start_time ∧ hourOf slot.start_time ≤ 13
      · exact hc
      · rw [if_neg hc] at h
        cases h
    · by_cases hc : hourOf slot.start_time ≥ 16
      · rw [if_pos hc] at h
        exact absurd (List.mem_singleton.mp h) hne1
      · rw [if_neg hc] at h
        cases h
    · by_cases hc : weekdayOf slot.start_time = 4 ∧ hourOf slot.start_time ≥ 15
      · rw [if_pos hc] at h
        exact absurd (List.mem_singleton.mp h) hne2
      · rw [if_neg hc] at h
        cases h
  · intro hc
    left
    left
    rw [if_pos hc]
    exact List.mem_singleton.mpr rfl

/-- Claim C10, counterexample: in the one-participant call at `now = 0`
internal steps do raise — the availability analysis and the slot
availability check both raise `AttributeError` — yet the call does not
return the claimed now+1h fallback: those exceptions are swallowed by the
helpers' own handlers (empty map / empty list), generation then yields no
candidate, and the result is the no-slot record recommending
`search_start + 1 day = 1440 ≠ 0 + 60`. -/
theorem claim_C10_exception_swallowing_counterexample :
    analyze_team_availability_body (("u") :: []) 0 20160 ⟨[], []⟩ =
      Except.error ("AttributeError") ∧
    check_slot_availability_body 540 570 (("u") :: []) ⟨[], []⟩ =
      Except.error ("AttributeError") ∧
    find_optimal_meeting_time (("u") :: []) 30 .team_meeting .medium (some 0)
      [] .productivity ⟨[], []⟩ 0 =
      { recommended_time := 1440
        confidence_score := 0
        alternative_times := []
        reasoning := "Nema dostupnih termina za sve učesnike u traženom periodu."
        productivity_impact := "Nepoznat"
        conflict_warnings := ["Nema slobodnih termina"] } ∧
    (1440 : Nat) ≠ 0 + 60 := by
  refine ⟨by decide, by decide, by decide, by decide⟩

/-- Claim C10 as amended: `find_optimal_meeting_time` is total — it returns
its body's value, or, when the body itself raises, the now+1h
zero-confidence fallback (first conjunct).  But "whenever any internal step
raises, the result is the now+1h fallback" is false: the raises inside
availability analysis and slot checking are swallowed by those helpers' own
handlers, and for every nonempty participant list — where the availability
analysis always raises `AttributeError` — the call returns the no-slot
record one day past the window start instead (second conjunct). -/
theorem claim_C10_exception_handling (participants : List String)
    (duration_minutes : Nat) (meeting_type : MeetingType)
    (priority : SchedulingPriority) (preferred_date : Option Nat)
    (constraints : List (String × SchedulingConstraint))
    (optimization_goal : OptimizationGoal) (db : Database) (now : Nat) :
    ((∃ result, find_optimal_meeting_time_body participants duration_minutes
        meeting_type priority preferred_date constraints optimization_goal
        db now = Except.ok result ∧
      find_optimal_meeting_time participants duration_minutes meeting_type
        priority preferred_date constraints optimization_goal db now = result) ∨
    (∃ e, find_optimal_meeting_time_body participants duration_minutes
        meeting_type priority preferred_date constraints optimization_goal
        db now = Except.error e ∧
      find_optimal_meeting_time participants duration_minutes meeting_type
        priority preferred_date constraints optimization_goal db now =
        { recommended_time := now + 60
          confidence_score := 0
          alternative_times := []
          reasoning := "Greška pri pronalaženju optimalnog vremena: " ++ e
          productivity_impact := "Nepoznat"
          conflict_warnings := [] })) ∧
    (participants ≠ [] →
      analyze_team_availability_body participants (preferred_date.getD now)
        (preferred_date.getD now + 14 * 1440) db =
        Except.error ("AttributeError") ∧
      find_optimal_meeting_time participants duration_minutes meeting_type
        priority preferred_date constraints optimization_goal db now =
        { recommended_time := preferred_date.getD now + 1440
          confidence_score := 0
          alternative_times := []
          reasoning := "Nema dostupnih termina za sve učesnike u traženom periodu."
          productivity_impact := "Nepoznat"
          conflict_warnings := ["Nema slobodnih termina"] }) := by
  constructor
  · unfold find_optimal_meeting_time
    rcases hb : find_optimal_meeting_time_body participants duration_minutes
      meeting_type priority preferred_date constraints optimization_goal db now
      with e | r
    · exact Or.inr ⟨e, rfl, rfl⟩
    · exact Or.inl ⟨r, rfl, rfl⟩
  · intro hne
    obtain ⟨u, rest, rfl⟩ := List.exists_cons_of_ne_nil hne
    refine ⟨rfl, ?_⟩
    exact find_optimal_eq_no_slot (u :: rest) duration_minutes meeting_type
      priority preferred_date constraints optimization_goal db now
      (generate_time_slots_nonempty_participants (List.cons_ne_nil u rest)
        duration_minutes (preferred_date.getD now)
        (preferred_date.getD now + 14 * 1440) db constraints)

/-- Witness for the amended C10: the implication instantiated at the
one-participant call of the counterexample. -/
theorem claim_C10_exception_handling_witness :
    analyze_team_availability_body (("u") :: []) ((some 0).getD 0)
      ((some 0).getD 0 + 14 * 1440) ⟨[], []⟩ =
      Except.error ("AttributeError") ∧
    find_optimal_meeting_time (("u") :: []) 30 .team_meeting .medium (some 0)
      [] .productivity ⟨[], []⟩ 0 =
      { recommended_time := (some 0).getD 0 + 1440
        confidence_score := 0
        alternative_times := []
        reasoning := "Nema dostupnih termina za sve učesnike u traženom periodu."
        productivity_impact := "Nepoznat"
        conflict_warnings := ["Nema slobodnih termina"] } :=
  (claim_C10_exception_handling (("u") :: []) 30 .team_meeting .medium
    (some 0) [] .productivity ⟨[], []⟩ 0).2 (by decide)

theorem foldl_add_eq {α : Type} (f : α → ℚ) :
    ∀ (l : List α) (a : ℚ),
      l.foldl (fun s x => s + f x) a = a + (l.map f).sum := by
  intro l
  induction l with
  | nil => intro a; simp
  | cons x xs ih =>
    intro a
    simp only [List.foldl_cons, List.map_cons, List.sum_cons]
    rw [ih]
    ring

/-- The per-slot score produced by the loop body of `_score_time_slots`,
in closed form (for a nonempty participant list, so that the workload
division succeeds): base 0.3, meeting-type bonus, the summed per-participant
productivity terms, the workload-balance bonus and the weekday bonus, capped
at 1. -/
theorem score_one_slot_closed_form (participants : List String)
    (meeting_type : MeetingType)
    (availability_data : List (String × AvailabilityEntry)) (slot : TimeSlot)
    (hne : participants ≠ []) :
    score_one_slot participants meeting_type availability_data slot =
      Except.ok { slot with productivity_score :=
        (min (0.3 + meeting_type_bonus meeting_type (hourOf slot.start_time) +
          productivity_contribution availability_data participants
            (hourOf slot.start_time) +
          (1 - (participants.map
              (fun user_id => workload_of availability_data user_id)).sum /
            (participants.length : ℚ)) * 0.2 +
          (if weekdayOf slot.start_time < 4 then (0.1 : ℚ)
           else if weekdayOf slot.start_time = 4 then 0.05 else 0)) 1) } := by
  have hlen : ¬((participants.length : ℚ) = 0) := by
    rw [Nat.cast_eq_zero, List.length_eq_zero]
    exact hne
  unfold score_one_slot
  simp only [pydiv, if_neg hlen, except_bind_ok]
  rw [foldl_add_eq]
  rfl

/-- With the empty availability map every per-participant productivity
lookup falls to the 0 default, so the summed component is 0. -/
theorem productivity_contribution_nil (participants : List String)
    (hour : Nat) :
    productivity_contribution [] participants hour = 0 := by
  unfold productivity_contribution
  induction participants with
  | nil => simp
  | cons u rest ih =>
    simp only [List.map_cons, List.sum_cons]
    rw [ih, show productivity_pattern_bonus [] u hour = 0 from rfl]
    exact add_zero 0

/-- With the empty availability map every workload lookup falls to the 0.5
default, so the summed workload is half the participant count. -/
theorem workload_sum_nil (participants : List String) :
    (participants.map (fun user_id => workload_of [] user_id)).sum =
      (participants.length : ℚ) * 0.5 := by
  induction participants with
  | nil => simp
  | cons u rest ih =>
    simp only [List.map_cons, List.sum_cons, List.length_cons]
    rw [ih, show workload_of [] u = 0.5 from rfl]
    push_cast
    ring

/-- Claim C3, counterexample: with participants `a` and `b` the
availability analysis returns the empty map (its first query raises
`AttributeError`, swallowed to `{}`), so the productivity term of the
scoring loop is 0 for every participant and the component added is 0 — not
the spec's average of per-participant hour-bucket weights scaled by 0.1,
which at hour 9 with the default table is 0.09.  For these participants the
program moreover never scores any slot at all: generation yields no
candidate. -/
theorem claim_C3_productivity_counterexample :
    analyze_team_availability (("a") :: ("b") :: []) 0 20160 ⟨[], []⟩ = [] ∧
    productivity_contribution
      (analyze_team_availability (("a") :: ("b") :: []) 0 20160 ⟨[], []⟩)
      (("a") :: ("b") :: []) 9 = 0 ∧
    spec_average_productivity_contribution (("a") :: ("b") :: []) 9 = 0.09 ∧
    ((0 : ℚ) ≠ 0.09) ∧
    generate_time_slots (("a") :: ("b") :: []) 30 0 20160 ⟨[], []⟩ [] = [] := by
  refine ⟨by decide, by decide, by decide, by decide, by decide⟩

/-- Claim C3 as amended: the productivity component the scoring loop adds
is the sum of per-participant lookups in the availability map the program
passes; that map is always empty, every lookup falls to the 0 default, and
the component is 0 on every input — neither the spec's average nor any
positive sum.  With the 0.5 workload default the produced score collapses
to `min(0.4 + meeting_type_bonus + weekday_bonus, 1)` for every nonempty
participant list, independent of the participants and the database. -/
theorem claim_C3_productivity_zero (participants : List String)
    (meeting_type : MeetingType) (start_date end_date : Nat) (db : Database)
    (slot : TimeSlot) (hne : participants ≠ []) :
    productivity_contribution
      (analyze_team_availability participants start_date end_date db)
      participants (hourOf slot.start_time) = 0 ∧
    score_one_slot participants meeting_type
      (analyze_team_availability participants start_date end_date db) slot =
      Except.ok { slot with productivity_score :=
        (min (0.4 + meeting_type_bonus meeting_type (hourOf slot.start_time) +
          (if weekdayOf slot.start_time < 4 then (0.1 : ℚ)
           else if weekdayOf slot.start_time = 4 then 0.05 else 0)) 1) } := by
  have hn : ((participants.length : ℚ)) ≠ 0 := by
    rw [Nat.cast_ne_zero]
    exact fun h0 => hne (List.length_eq_zero.mp h0)
  rw [analyze_team_availability_always_nil]
  refine ⟨productivity_contribution_nil participants (hourOf slot.start_time),
    ?_⟩
  rw [score_one_slot_closed_form participants meeting_type [] slot hne,
    productivity_contribution_nil, workload_sum_nil,
    mul_div_cancel_left₀ (0.5 : ℚ) hn]
  rw [show (0.3 : ℚ) + meeting_type_bonus meeting_type (hourOf slot.start_time) +
      0 + (1 - 0.5) * 0.2 +
      (if weekdayOf slot.start_time < 4 then (0.1 : ℚ)
       else if weekdayOf slot.start_time = 4 then 0.05 else 0) =
      0.4 + meeting_type_bonus meeting_type (hourOf slot.start_time) +
      (if weekdayOf slot.start_time < 4 then (0.1 : ℚ)
       else if weekdayOf slot.start_time = 4 then 0.05 else 0) from by ring]

/-- Witness for the amended C3: instantiated at the two-participant
Monday-09:00 slot; the added component is 0 and the score is
`min(0.4 + 0 + 0.1, 1) = 0.5`. -/
theorem claim_C3_productivity_zero_witness :
    ((("a") :: ("b") :: []) ≠ ([] : List String)) ∧
    productivity_contribution
      (analyze_team_availability (("a") :: ("b") :: []) 0 20160 ⟨[], []⟩)
      (("a") :: ("b") :: []) (hourOf (540 : Nat)) = 0 ∧
    score_one_slot (("a") :: ("b") :: []) .team_meeting
      (analyze_team_availability (("a") :: ("b") :: []) 0 20160 ⟨[], []⟩)
      ⟨540, 570, [], 0, 0, []⟩ =
      Except.ok ⟨540, 570, [],
        min (0.4 + meeting_type_bonus .team_meeting (hourOf (540 : Nat)) +
          (if weekdayOf (540 : Nat) < 4 then (0.1 : ℚ)
           else if weekdayOf (540 : Nat) = 4 then 0.05 else 0)) 1, 0, []⟩ :=
  ⟨by decide,
    (claim_C3_productivity_zero (("a") :: ("b") :: []) .team_meeting 0 20160
      ⟨[], []⟩ ⟨540, 570, [], 0, 0, []⟩ (by decide)).1,
    (claim_C3_productivity_zero (("a") :: ("b") :: []) .team_meeting 0 20160
      ⟨[], []⟩ ⟨540, 570, [], 0, 0, []⟩ (by decide)).2⟩

/-- Claim C8, counterexample: the workload analysis never computes any
per-user record.  For the one-member team `u` the member loop raises
`AttributeError` at its first events statement; for the empty team the
team-average division raises `ZeroDivisionError`; in both cases
`analyze_team_workload` returns the error dictionary with an empty
`team_workload`, so no record carrying the claimed score formula ever
reaches a caller. -/
theorem claim_C8_workload_counterexample :
    analyze_team_workload_body (("u") :: []) ("week") ⟨[], []⟩ 20000 =
      Except.error ("AttributeError") ∧
    analyze_team_workload (("u") :: []) ("week") ⟨[], []⟩ 20000 =
      WorkloadResult.failed
        ("Greška pri analizi opterećenja tima: AttributeError") [] [] ∧
    analyze_team_workload_body [] ("week") ⟨[], []⟩ 20000 =
      Except.error ("ZeroDivisionError") ∧
    analyze_team_workload [] ("week") ⟨[], []⟩ 20000 =
      WorkloadResult.failed
        ("Greška pri analizi opterećenja tima: ZeroDivisionError") [] [] := by
  refine ⟨by decide, by decide, by decide, by decide⟩

/-- Claim C8 as amended: `analyze_team_workload` never yields a workload
report.  A nonempty team raises `AttributeError` at the first member's
events statement, an empty team raises `ZeroDivisionError` at the
team-average division, and in both cases the handler returns the error
dictionary with empty team data.  The claimed score formula survives only
as dead code: `workload_entry_from` translates it, and on any fetched rows
it would satisfy the claimed `min(avg/5 + avg_hours/4, 1)` equation with the
zero-day guard (third conjunct) — but no call ever reaches it. -/
theorem claim_C8_workload_never_computed (team_members : List String)
    (time_period : String) (db : Database) (now : Nat) :
    (team_members ≠ [] →
      analyze_team_workload_body team_members time_period db now =
        Except.error ("AttributeError") ∧
      analyze_team_workload team_members time_period db now =
        WorkloadResult.failed
          ("Greška pri analizi opterećenja tima: AttributeError") [] []) ∧
    (team_members = [] →
      analyze_team_workload_body team_members time_period db now =
        Except.error ("ZeroDivisionError") ∧
      analyze_team_workload team_members time_period db now =
        WorkloadResult.failed
          ("Greška pri analizi opterećenja tima: ZeroDivisionError") [] []) ∧
    (∀ (user_events : List Event) (user_tasks : List Task)
        (start_date now2 : Nat),
      (workload_entry_from user_events user_tasks start_date
        now2).workload_score =
        (let meeting_count := user_events.length
         let total_meeting_time :=
           (user_events.map (fun ev => ev.duration)).sum
         let days_in_period := (now2 - start_date) / 1440
         let avg_meetings_per_day : ℚ :=
           if days_in_period > 0 then
             (meeting_count : ℚ) / (days_in_period : ℚ)
           else 0
         let avg_meeting_hours_per_day : ℚ :=
           if days_in_period > 0 then
             ((total_meeting_time : ℚ) / 60) / (days_in_period : ℚ)
           else 0
         min (avg_meetings_per_day / 5 + avg_meeting_hours_per_day / 4) 1)) := by
  refine ⟨?_, ?_, ?_⟩
  · intro hne
    obtain ⟨u, rest, rfl⟩ := List.exists_cons_of_ne_nil hne
    exact ⟨rfl, rfl⟩
  · intro h0
    subst h0
    exact ⟨rfl, rfl⟩
  · intro user_events user_tasks start_date now2
    rfl

/-- Witness for the amended C8: both implications discharged at the
one-member and the empty team of the counterexample, and the dead-code
formula instantiated at a concrete one-week window. -/
theorem claim_C8_workload_never_computed_witness :
    (analyze_team_workload_body (("u") :: []) ("week") ⟨[], []⟩ 20000 =
      Except.error ("AttributeError") ∧
     analyze_team_workload (("u") :: []) ("week") ⟨[], []⟩ 20000 =
      WorkloadResult.failed
        ("Greška pri analizi opterećenja tima: AttributeError") [] []) ∧
    (analyze_team_workload_body [] ("week") ⟨[], []⟩ 20000 =
      Except.error ("ZeroDivisionError") ∧
     analyze_team_workload [] ("week") ⟨[], []⟩ 20000 =
      WorkloadResult.failed
        ("Greška pri analizi opterećenja tima: ZeroDivisionError") [] []) ∧
    (workload_entry_from [] [] 0 10080).workload_score =
      (let meeting_count := ([] : List Event).length
       let total_meeting_time :=
         (([] : List Event).map (fun ev => ev.duration)).sum
       let days_in_period := (10080 - 0) / 1440
       let avg_meetings_per_day : ℚ :=
         if days_in_period > 0 then
           (meeting_count : ℚ) / (days_in_period : ℚ)
         else 0
       let avg_meeting_hours_per_day : ℚ :=
         if days_in_period > 0 then
           ((total_meeting_time : ℚ) / 60) / (days_in_period : ℚ)
         else 0
       min (avg_meetings_per_day / 5 + avg_meeting_hours_per_day / 4) 1) :=
  ⟨(claim_C8_workload_never_computed (("u") :: []) ("week") ⟨[], []⟩
      20000).1 (by decide),
    (claim_C8_workload_never_computed [] ("week") ⟨[], []⟩ 20000).2.1 rfl,
    (claim_C8_workload_never_computed [] ("week") ⟨[], []⟩ 20000).2.2
      [] [] 0 10080⟩

theorem except_pure_eq {α : Type} (a : α) :
    (pure a : Except String α) = Except.ok a := rfl

theorem mem_stable_insert_desc {x a : TimeSlot} :
    ∀ {l : List TimeSlot}, a ∈ stable_insert_desc x l ↔ a = x ∨ a ∈ l := by
  intro l
  induction l with
  | nil => simp [stable_insert_desc]
  | cons y ys ih =>
    simp only [stable_insert_desc]
    split
    · simp only [List.mem_cons, ih]
      tauto
    · simp only [List.mem_cons]

theorem stable_insert_desc_perm (x : TimeSlot) :
    ∀ (l : List TimeSlot), (stable_insert_desc x l).Perm (x :: l) := by
  intro l
  induction l with
  | nil => exact List.Perm.refl _
  | cons y ys ih =>
    simp only [stable_insert_desc]
    split
    · exact (ih.cons y).trans (List.Perm.swap x y ys)
    · exact List.Perm.refl _

theorem sort_by_score_desc_perm :
    ∀ (l : List TimeSlot), (sort_by_score_desc l).Perm l := by
  intro l
  induction l with
  | nil => exact List.Perm.refl _
  | cons x xs ih =>
    simp only [sort_by_score_desc]
    exact (stable_insert_desc_perm x _).trans (ih.cons x)

theorem stable_insert_desc_pairwise {x : TimeSlot} :
    ∀ {l : List TimeSlot},
      l.Pairwise (fun a b => b.productivity_score < a.productivity_score ∨
        (a.productivity_score = b.productivity_score ∧
          a.start_time < b.start_time)) →
      (∀ y ∈ l, x.start_time < y.start_time) →
      (stable_insert_desc x l).Pairwise
        (fun a b => b.productivity_score < a.productivity_score ∨
          (a.productivity_score = b.productivity_score ∧
            a.start_time < b.start_time)) := by
  intro l
  induction l with
  | nil =>
    intro _ _
    simp [stable_insert_desc]
  | cons y ys ih =>
    intro hp hs
    rw [List.pairwise_cons] at hp
    obtain ⟨hy, hys⟩ := hp
    simp only [stable_insert_desc]
    split
    case isTrue hc =>
      refine List.Pairwise.cons ?_
        (ih hys (fun z hz => hs z (List.mem_cons_of_mem y hz)))
      intro z hz
      rcases mem_stable_insert_desc.mp hz with rfl | hz2
      · exact Or.inl hc
      · exact hy z hz2
    case isFalse hc =>
      push_neg at hc
      refine List.Pairwise.cons ?_ (List.Pairwise.cons hy hys)
      intro z hz
      rcases List.mem_cons.mp hz with rfl | hz2
      · rcases lt_or_eq_of_le hc with hlt | heq
        · exact Or.inl hlt
        · exact Or.inr ⟨heq.symm, hs _ (List.mem_cons_self _ _)⟩
      · rcases hy z hz2 with hlt | ⟨heq, hst⟩
        · exact Or.inl (lt_of_lt_of_le hlt hc)
        · rcases lt_or_eq_of_le hc with hlt2 | heq2
          · exact Or.inl (heq ▸ hlt2)
          · exact Or.inr ⟨heq2.symm.trans heq,
              hs z (List.mem_cons_of_mem y hz2)⟩

theorem sort_by_score_desc_pairwise :
    ∀ {l : List TimeSlot},
      l.Pairwise (fun a b => a.start_time < b.start_time) →
      (sort_by_score_desc l).Pairwise
        (fun a b => b.productivity_score < a.productivity_score ∨
          (a.productivity_score = b.productivity_score ∧
            a.start_time < b.start_time)) := by
  intro l
  induction l with
  | nil => intro _; exact List.Pairwise.nil
  | cons x xs ih =>
    intro hp
    rw [List.pairwise_cons] at hp
    obtain ⟨hx, hxs⟩ := hp
    simp only [sort_by_score_desc]
    refine stable_insert_desc_pairwise (ih hxs) ?_
    intro y hy
    exact hx y ((sort_by_score_desc_perm xs).mem_iff.mp hy)

theorem mapM_ok_forall2 {α β : Type} (f : α → Except String β) :
    ∀ {l : List α} {r : List β}, l.mapM f = Except.ok r →
      List.Forall₂ (fun a b => f a = Except.ok b) l r := by
  intro l
  induction l with
  | nil =>
    intro r h
    rw [List.mapM_nil] at h
    cases h
    exact List.Forall₂.nil
  | cons x xs ih =>
    intro r h
    rw [List.mapM_cons] at h
    cases hx : f x with
    | error e =>
      rw [hx, except_bind_error] at h
      cases h
    | ok b =>
      rw [hx, except_bind_ok] at h
      cases hxs : xs.mapM f with
      | error e =>
        rw [hxs, except_bind_error] at h
        cases h
      | ok bs =>
        rw [hxs, except_bind_ok, except_pure_eq] at h
        cases h
        exact List.Forall₂.cons hx (ih hxs)

theorem score_one_slot_preserves {participants : List String}
    {meeting_type : MeetingType}
    {availability_data : List (String × AvailabilityEntry)}
    {slot slot2 : TimeSlot}
    (h : score_one_slot participants meeting_type availability_data slot =
      Except.ok slot2) :
    slot2.start_time = slot.start_time ∧ slot2.end_time = slot.end_time := by
  unfold score_one_slot at h
  by_cases hlen : ((participants.length : ℚ)) = 0
  · simp only [pydiv, if_pos hlen, except_bind_error] at h
    cases h
  · simp only [pydiv, if_neg hlen, except_bind_ok, except_pure_eq] at h
    cases h
    exact ⟨rfl, rfl⟩

theorem forall2_scored_map_start {participants : List String}
    {meeting_type : MeetingType}
    {availability_data : List (String × AvailabilityEntry)} :
    ∀ {l r : List TimeSlot},
      List.Forall₂ (fun a b => score_one_slot participants meeting_type
        availability_data a = Except.ok b) l r →
      r.map (fun s => s.start_time) = l.map (fun s => s.start_time) := by
  intro l r h
  induction h with
  | nil => rfl
  | cons hab htail ih =>
    simp only [List.map_cons, ih, List.cons.injEq]
    exact ⟨(score_one_slot_preserves hab).1, trivial⟩

theorem generate_time_slots_chronological (participants : List String)
    (duration_minutes start_date end_date : Nat) (db : Database)
    (constraints : List (String × SchedulingConstraint)) :
    (generate_time_slots participants duration_minutes start_date end_date db
      constraints).Pairwise (fun a b => a.start_time < b.start_time) := by
  have hstart : ∀ (day : Nat) (x : TimeSlot),
      x ∈ (if weekdayOfDate day ≥ 5 then ([] : List TimeSlot) else
        (slot_walk (day * 1440 + 540) duration_minutes
          (day * 1440 + 1020)).filterMap
          (fun current_time =>
            if (check_slot_availability current_time
                (current_time + duration_minutes) participants db).length =
                participants.length then
              some { start_time := current_time
                     end_time := current_time + duration_minutes
                     available_users := check_slot_availability current_time
                       (current_time + duration_minutes) participants db
                     productivity_score := 0
                     conflict_score := 0
                     optimal_for := [] }
            else none)) →
      day * 1440 + 540 ≤ x.start_time ∧
      x.start_time + duration_minutes ≤ day * 1440 + 1020 := by
    intro day x hx
    by_cases hw : weekdayOfDate day ≥ 5
    · rw [if_pos hw] at hx
      cases hx
    · rw [if_neg hw] at hx
      rw [List.mem_filterMap] at hx
      obtain ⟨t, ht, hsome⟩ := hx
      obtain ⟨h1, h2⟩ := mem_slot_walk ht
      by_cases hl : (check_slot_availability t (t + duration_minutes)
          participants db).length = participants.length
      · rw [if_pos hl] at hsome
        cases hsome
        exact ⟨h1, h2⟩
      · rw [if_neg hl] at hsome
        cases hsome
  simp only [generate_time_slots]
  rw [show ∀ (L : List Nat) (f : Nat → List TimeSlot),
    L.flatMap f = (L.map f).flatten from fun L f => rfl]
  rw [List.pairwise_flatten]
  constructor
  · intro l2 hl2
    rw [List.mem_map] at hl2
    obtain ⟨day, -, rfl⟩ := hl2
    by_cases hw : weekdayOfDate day ≥ 5
    · rw [if_pos hw]
      exact List.Pairwise.nil
    · rw [if_neg hw]
      refine List.Pairwise.filterMap _ ?_ (slot_walk_pairwise _ _ _)
      intro t t2 hlt b hb b2 hb2
      by_cases hc : (check_slot_availability t (t + duration_minutes)
          participants db).length = participants.length
      · rw [if_pos hc] at hb
        by_cases hc2 : (check_slot_availability t2 (t2 + duration_minutes)
            participants db).length = participants.length
        · rw [if_pos hc2] at hb2
          cases hb
          cases hb2
          exact hlt
        · rw [if_neg hc2] at hb2
          cases hb2
      · rw [if_neg hc] at hb
        cases hb
  · rw [List.pairwise_map]
    have hdays : ((List.range (dateOf end_date + 1 - dateOf start_date)).map
        (fun k => dateOf start_date + k)).Pairwise (· < ·) := by
      rw [List.pairwise_map]
      exact (List.pairwise_lt_range _).imp (fun hab => by omega)
    refine hdays.imp ?_
    intro d d2 hdd x hx y hy
    have hxb := hstart d x hx
    have hyb := hstart d2 y hy
    omega

/-- Claim C7 (confirmed): the scored candidate list is ordered descending by
productivity score with ties broken by earliest start time (Python's stable
sort on the chronological generation order), all scored candidates have
pairwise distinct start times, and when a winner exists the result's
alternatives are exactly the next-best up-to-5 start times after the winner,
in that order, all distinct from the recommended time and from each other.
In the program a successful scoring pass always carries the empty list — a
nonempty participant list generates no candidates (the availability check
fails closed) and an empty one fails scoring whenever candidates exist — so
the ordering properties hold for every reachable scored list. -/
theorem claim_C7_ordering (participants : List String)
    (duration_minutes : Nat) (meeting_type : MeetingType)
    (priority : SchedulingPriority) (preferred_date : Option Nat)
    (constraints : List (String × SchedulingConstraint))
    (optimization_goal : OptimizationGoal) (db : Database) (now : Nat)
    (scored : List TimeSlot)
    (h : score_time_slots
      (generate_time_slots participants duration_minutes
        (preferred_date.getD now) (preferred_date.getD now + 14 * 1440) db
        constraints)
      participants meeting_type optimization_goal
      (analyze_team_availability participants (preferred_date.getD now)
        (preferred_date.getD now + 14 * 1440) db) = Except.ok scored) :
    scored.Pairwise (fun a b => b.productivity_score < a.productivity_score ∨
      (a.productivity_score = b.productivity_score ∧
        a.start_time < b.start_time)) ∧
    scored.Pairwise (fun a b => a.start_time ≠ b.start_time) ∧
    (∀ best rest, scored = best :: rest →
      (find_optimal_meeting_time participants duration_minutes meeting_type
        priority preferred_date constraints optimization_goal db
        now).recommended_time = best.start_time ∧
      (find_optimal_meeting_time participants duration_minutes meeting_type
        priority preferred_date constraints optimization_goal db
        now).alternative_times =
        (rest.take 5).map (fun slot => slot.start_time) ∧
      ((find_optimal_meeting_time participants duration_minutes meeting_type
          priority preferred_date constraints optimization_goal db
          now).recommended_time ::
        (find_optimal_meeting_time participants duration_minutes meeting_type
          priority preferred_date constraints optimization_goal db
          now).alternative_times).Pairwise (· ≠ ·)) := by
  unfold score_time_slots at h
  cases hm : (generate_time_slots participants duration_minutes
      (preferred_date.getD now) (preferred_date.getD now + 14 * 1440) db
      constraints).mapM (score_one_slot participants meeting_type
        (analyze_team_availability participants (preferred_date.getD now)
          (preferred_date.getD now + 14 * 1440) db)) with
  | error e =>
    rw [hm, except_bind_error] at h
    cases h
  | ok l0 =>
    rw [hm, except_bind_ok, except_pure_eq] at h
    cases h
    have hf2 := mapM_ok_forall2 _ hm
    have hmap := forall2_scored_map_start hf2
    have hchron0 := generate_time_slots_chronological participants
      duration_minutes (preferred_date.getD now)
      (preferred_date.getD now + 14 * 1440) db constraints
    have hchron : l0.Pairwise (fun a b => a.start_time < b.start_time) := by
      rw [← List.pairwise_map (f := fun s : TimeSlot => s.start_time)
        (R := (· < ·))]
      rw [hmap]
      rw [List.pairwise_map]
      exact hchron0
    have hQ := sort_by_score_desc_pairwise hchron
    have hne : (sort_by_score_desc l0).Pairwise
        (fun a b => a.start_time ≠ b.start_time) := by
      have h1 : l0.Pairwise (fun a b => a.start_time ≠ b.start_time) :=
        hchron.imp (fun hab => Nat.ne_of_lt hab)
      exact (List.Perm.pairwise_iff (fun hxy => Ne.symm hxy)
        (sort_by_score_desc_perm l0)).mpr h1
    refine ⟨hQ, hne, ?_⟩
    intro best rest hbr
    have hfind : find_optimal_meeting_time participants duration_minutes
        meeting_type priority preferred_date constraints optimization_goal db
        now =
        { recommended_time := best.start_time
          confidence_score := best.productivity_score
          alternative_times := (rest.take 5).map (fun slot => slot.start_time)
          reasoning := generate_scheduling_reasoning best participants
            meeting_type
          productivity_impact := analyze_productivity_impact best participants
            (analyze_team_availability participants (preferred_date.getD now)
              (preferred_date.getD now + 14 * 1440) db)
          conflict_warnings := check_scheduling_conflicts best participants } := by
      unfold find_optimal_meeting_time
      simp only [find_optimal_meeting_time_body, score_time_slots]
      rw [hm, except_bind_ok, except_pure_eq, except_bind_ok, hbr]
      rfl
    refine ⟨by rw [hfind], by rw [hfind], ?_⟩
    rw [hfind]
    have hpne : (best :: rest).Pairwise
        (fun a b => a.start_time ≠ b.start_time) := by
      rw [← hbr]
      exact hne
    have hsub : (best :: rest.take 5).Sublist (best :: rest) :=
      List.Sublist.cons₂ best (List.take_sublist 5 rest)
    have hp6 := List.Pairwise.sublist hsub hpne
    show ((best :: rest.take 5).map (fun slot => slot.start_time)).Pairwise (· ≠ ·)
    rw [List.pairwise_map]
    exact hp6

/-- Witness for C7: the one-participant call on an empty calendar — the
only kind of scored list a real call ever carries, namely the empty one (no
candidate survives the fail-closed availability check), on which both
ordering properties hold. -/
theorem claim_C7_ordering_witness :
    (score_time_slots
      (generate_time_slots (("u") :: []) 30 ((some 0).getD 0)
        ((some 0).getD 0 + 14 * 1440) ⟨[], []⟩ [])
      (("u") :: []) .team_meeting .productivity
      (analyze_team_availability (("u") :: []) ((some 0).getD 0)
        ((some 0).getD 0 + 14 * 1440) ⟨[], []⟩) =
      Except.ok ([] : List TimeSlot)) ∧
    (([] : List TimeSlot)).Pairwise
      (fun a b => b.productivity_score < a.productivity_score ∨
        (a.productivity_score = b.productivity_score ∧
          a.start_time < b.start_time)) ∧
    (([] : List TimeSlot)).Pairwise (fun a b => a.start_time ≠ b.start_time) :=
  ⟨by decide,
    (claim_C7_ordering (("u") :: []) 30 .team_meeting .medium (some 0) []
      .productivity ⟨[], []⟩ 0 ([] : List TimeSlot) (by decide)).1,
    (claim_C7_ordering (("u") :: []) 30 .team_meeting .medium (some 0) []
      .productivity ⟨[], []⟩ 0 ([] : List TimeSlot) (by decide)).2.1⟩

end SmartScheduler
